import Mathlib

/-!
Verification development for the EXIF-Viewer core
(`src/core/exif_extractor.py`, `src/core/file_processor.py`,
`src/core/exporter.py`), shallowly embedded in Lean 4.

Python dictionaries are modelled as association lists (`alookup` /
`ains` mirror `d[k]` reads and `d[k] = v` writes, keeping insertion
order like CPython dicts).  Python floats are modelled as `ℚ` (all the
arithmetic the GPS decoder performs is exact on the decimal inputs the
claims concern).  External collaborators (PIL, exifread, ffprobe,
mutagen, the filesystem) are an explicit environment whose calls return
`Except String _`: `.error e` models the collaborator raising an
exception whose `str()` is `e`.
-/

/-- Association-list lookup, modelling a Python dict read (`d.get(k)`). -/
def alookup {α β : Type} [DecidableEq α] : List (α × β) → α → Option β
  | [], _ => none
  | (k, v) :: t, a => if k = a then some v else alookup t a

/-- Association-list insert-or-overwrite, modelling a Python dict write
(`d[k] = v`): an existing key keeps its position and gets the new value,
a new key is appended. -/
def ains {α β : Type} [DecidableEq α] (l : List (α × β)) (k : α) (v : β) :
    List (α × β) :=
  if (alookup l k).isSome then
    l.map (fun q => if q.1 = k then (k, v) else q)
  else
    l ++ [(k, v)]

theorem alookup_mem {α β : Type} [DecidableEq α] {l : List (α × β)} {k : α} {v : β}
    (h : alookup l k = some v) : (k, v) ∈ l := by
  induction l with
  | nil => simp [alookup] at h
  | cons hd t ih =>
    by_cases hk : hd.1 = k
    · simp only [alookup, if_pos hk, Option.some.injEq] at h
      cases hd
      simp_all
    · simp only [alookup, if_neg hk] at h
      exact List.mem_cons_of_mem _ (ih h)

theorem alookup_isSome_of_mem {α β : Type} [DecidableEq α] {l : List (α × β)}
    {k : α} {v : β} (h : (k, v) ∈ l) : (alookup l k).isSome := by
  induction l with
  | nil => simp at h
  | cons hd t ih =>
    rcases List.mem_cons.mp h with h1 | h2
    · simp [alookup, ← h1]
    · by_cases hk : hd.1 = k
      · simp [alookup, hk]
      · simpa [alookup, hk] using ih h2

theorem alookup_eq_none {α β : Type} [DecidableEq α] {l : List (α × β)} {k : α}
    (h : ∀ p ∈ l, p.1 ≠ k) : alookup l k = none := by
  induction l with
  | nil => rfl
  | cons hd t ih =>
    have hhd : hd.1 ≠ k := h hd (List.mem_cons_self _ _)
    simp only [alookup, if_neg hhd]
    exact ih fun p hp => h p (List.mem_cons_of_mem _ hp)

theorem alookup_append_right {α β : Type} [DecidableEq α] {l₁ : List (α × β)}
    (l₂ : List (α × β)) {k : α} (h : alookup l₁ k = none) :
    alookup (l₁ ++ l₂) k = alookup l₂ k := by
  induction l₁ with
  | nil => rfl
  | cons hd t ih =>
    by_cases hk : hd.1 = k
    · simp [alookup, hk] at h
    · simp only [alookup, if_neg hk] at h ⊢
      exact ih h

theorem ains_of_none {α β : Type} [DecidableEq α] {l : List (α × β)} {k : α}
    {v : β} (h : alookup l k = none) : ains l k v = l ++ [(k, v)] := by
  simp [ains, h]

theorem mem_ains {α β : Type} [DecidableEq α] {l : List (α × β)} {k : α}
    {v : β} {pr : α × β} (h : pr ∈ ains l k v) : pr ∈ l ∨ pr = (k, v) := by
  unfold ains at h
  split at h
  · rcases List.mem_map.mp h with ⟨q, hq, hpr⟩
    by_cases hqk : q.1 = k
    · right; rw [if_pos hqk] at hpr; exact hpr.symm
    · left; rw [if_neg hqk] at hpr; exact hpr ▸ hq
  · rcases List.mem_append.mp h with h1 | h2
    · exact Or.inl h1
    · right; simpa using h2

/-! ## Path helpers

`pyBasename` models `os.path.basename`; `pathSuffix` models
`pathlib.PurePath.suffix` (`name.rfind('.')`, kept only when
`0 < i < len(name) - 1`); `extLower` models
`Path(file_path).suffix.lower()`. -/

/-- Characters after the last `/` of the path (CPython `os.path.basename`
on POSIX paths). -/
def afterLastSlash (cs : List Char) : List Char :=
  cs.foldl (fun acc c => if c = '/' then [] else acc ++ [c]) []

def pyBasename (p : String) : String :=
  String.mk (afterLastSlash p.toList)

/-- Index of the last `.` in the character list, like `str.rfind('.')`. -/
def lastDotIdx (cs : List Char) : Option Nat :=
  ((cs.enum.filter (fun e => e.2 = '.')).getLast?).map (·.1)

/-- `pathlib.PurePath.suffix`: the final component's extension including
the dot, empty for dotless names, hidden files and trailing dots. -/
def pathSuffix (p : String) : String :=
  let name := afterLastSlash p.toList
  match lastDotIdx name with
  | none => ""
  | some i => if 0 < i ∧ i < name.length - 1 then String.mk (name.drop i) else ""

/-- `str.lower()` (ASCII case mapping, which is all the extension and
format tokens exercise). -/
def lowerChar (c : Char) : Char :=
  if c.isUpper then Char.ofNat (c.toNat + 32) else c

def strLower (s : String) : String :=
  String.mk (s.toList.map lowerChar)

def extLower (p : String) : String :=
  strLower (pathSuffix p)

/-- `f"{n:,}"`: thousands grouping of a digit string (input reversed,
counter = digits already emitted). -/
def grpRev : List Char → Nat → List Char
  | [], _ => []
  | c :: t, k =>
    if 0 < k ∧ k % 3 = 0 then ',' :: c :: grpRev t (k + 1)
    else c :: grpRev t (k + 1)

def groupDigits (s : String) : String :=
  String.mk ((grpRev s.toList.reverse 0).reverse)

/-! ## Supported formats (`EXIFExtractor.__init__`, `is_supported_file`) -/

def supported_image_formats : List String :=
  [".jpg", ".jpeg", ".tiff", ".tif", ".png", ".bmp", ".gif"]

def supported_video_formats : List String :=
  [".mp4", ".avi", ".mov", ".mkv", ".wmv"]

def supported_audio_formats : List String :=
  [".mp3", ".wav", ".flac", ".m4a"]

/-- `EXIFExtractor.is_supported_file`: lowercase suffix against the
union of the three extension sets. -/
def is_supported_file (file_path : String) : Bool :=
  decide (extLower file_path ∈
    supported_image_formats ++ supported_video_formats ++ supported_audio_formats)

/-! ## GPS decoder (`_parse_gps_data`, `_convert_to_degrees`)

The raw GPS sub-mapping maps small integer GPS-IFD indices to values.
The values the source handles are hemisphere reference strings and
sexagesimal triples of rationals (PIL `IFDRational`s, modelled as `ℚ`).
-/

inductive GVal : Type where
  /-- A string value, e.g. a hemisphere reference like `'N'`. -/
  | ref : String → GVal
  /-- A sequence of numeric components, e.g. a `(d, m, s)` triple. -/
  | nums : List ℚ → GVal
deriving DecidableEq, Repr

/-- Keys of decoded metadata dicts: `GPSTAGS.get(key, key)` /
`TAGS.get(tag_id, tag_id)` yield a tag-name string for known ids and the
raw integer id otherwise. -/
inductive PKey : Type where
  | name : String → PKey
  | idx : Nat → PKey
deriving DecidableEq, Repr

/-- Values stored in the decoded `gps_data` dict: every raw entry is
stringified, the two decimal coordinates are stored as numbers. -/
inductive GOut : Type where
  | str : String → GOut
  | num : ℚ → GOut
deriving DecidableEq, Repr

/-- Rendering of a rational, standing in for Python `str()` of the raw
value.  The exact text Python produces (e.g. for `IFDRational`) is not
reproduced; no claim inspects these strings. -/
def qStr (q : ℚ) : String :=
  toString q.num ++ "/" ++ toString q.den

def pyStrG : GVal → String
  | .ref s => s
  | .nums l => "(" ++ String.intercalate ", " (l.map qStr) ++ ")"

/-- `PIL.ExifTags.GPSTAGS`: the standard GPS IFD tag-name table. -/
def gpsTagTable : List (Nat × String) :=
  [(0, "GPSVersionID"), (1, "GPSLatitudeRef"), (2, "GPSLatitude"),
   (3, "GPSLongitudeRef"), (4, "GPSLongitude"), (5, "GPSAltitudeRef"),
   (6, "GPSAltitude"), (7, "GPSTimeStamp"), (8, "GPSSatellites"),
   (9, "GPSStatus"), (10, "GPSMeasureMode"), (11, "GPSDOP"),
   (12, "GPSSpeedRef"), (13, "GPSSpeed"), (14, "GPSTrackRef"),
   (15, "GPSTrack"), (16, "GPSImgDirectionRef"), (17, "GPSImgDirection"),
   (18, "GPSMapDatum"), (19, "GPSDestLatitudeRef"), (20, "GPSDestLatitude"),
   (21, "GPSDestLongitudeRef"), (22, "GPSDestLongitude"),
   (23, "GPSDestBearingRef"), (24, "GPSDestBearing"),
   (25, "GPSDestDistanceRef"), (26, "GPSDestDistance"),
   (27, "GPSProcessingMethod"), (28, "GPSAreaInformation"),
   (29, "GPSDateStamp"), (30, "GPSDifferential"), (31, "GPSHPositioningError")]

/-- `GPSTAGS.get(key, key)`: tag-name for known indices, the raw integer
key otherwise. -/
def gpsTagName (n : Nat) : PKey :=
  match alookup gpsTagTable n with
  | some s => .name s
  | none => .idx n

/-- `len(value)` of a GPS value. -/
def pyLen : GVal → Nat
  | .ref s => s.length
  | .nums l => l.length

/-- The arithmetic of `_convert_to_degrees` on a well-formed list. -/
def convQ (l : List ℚ) : ℚ :=
  if l.length = 3 then
    l.getD 0 0 + l.getD 1 0 / 60 + l.getD 2 0 / 3600
  else 0

/-- `EXIFExtractor._convert_to_degrees`.  `len(value) != 3` returns
`0.0` before touching the elements.  A length-3 string value would feed
single characters to `float()`, which raises for the hemisphere letters
actually found there (digit characters would convert in CPython, but no
such value reaches this helper from a GPS IFD). -/
def convert_to_degrees : GVal → Except String ℚ
  | .nums l => .ok (convQ l)
  | .ref s => if s.length = 3 then .error "could not convert string to float"
              else .ok 0

/-- `EXIFExtractor._parse_gps_data`: stringify every entry under its
decoded tag name, then — when both `GPSLatitude` and `GPSLongitude`
landed in the output dict — convert the index-2 and index-4 triples,
negate on `'S'` / `'W'` references, and append the two decimal fields.
Any exception inside the numeric step is swallowed (`except: pass`). -/
def parse_gps_data (gps_info : List (Nat × GVal)) : List (PKey × GOut) :=
  if gps_info.isEmpty then []
  else
    let gps_data := gps_info.map (fun kv => (gpsTagName kv.1, GOut.str (pyStrG kv.2)))
    if (alookup gps_data (.name "GPSLatitude")).isSome &&
        (alookup gps_data (.name "GPSLongitude")).isSome then
      match convert_to_degrees ((alookup gps_info 2).getD (.nums [])),
            convert_to_degrees ((alookup gps_info 4).getD (.nums [])) with
      | .ok lat0, .ok lon0 =>
        let lat := if alookup gps_info 1 = some (.ref "S") then -lat0 else lat0
        let lon := if alookup gps_info 3 = some (.ref "W") then -lon0 else lon0
        gps_data ++ [(.name "DecimalLatitude", .num lat),
                     (.name "DecimalLongitude", .num lon)]
      | _, _ => gps_data
    else gps_data

/-! ### GPS decoder lemmas -/

theorem gpsTagName_ne_name (n : Nat) (s : String)
    (hs : s ∉ gpsTagTable.map Prod.snd) : gpsTagName n ≠ .name s := by
  unfold gpsTagName
  intro heq
  cases h : alookup gpsTagTable n with
  | none => rw [h] at heq; simp at heq
  | some s' =>
    rw [h] at heq
    simp only [PKey.name.injEq] at heq
    exact hs (heq ▸ List.mem_map_of_mem Prod.snd (alookup_mem h))

theorem gpsTagName_ne_decLat (n : Nat) : gpsTagName n ≠ .name "DecimalLatitude" :=
  gpsTagName_ne_name n _ (by decide)

theorem gpsTagName_ne_decLon (n : Nat) : gpsTagName n ≠ .name "DecimalLongitude" :=
  gpsTagName_ne_name n _ (by decide)

/-- Characterization of the decimal fields `_parse_gps_data` appends
when both coordinate triples are numeric sequences. -/
theorem parse_gps_decimals (g : List (Nat × GVal)) (L M : List ℚ)
    (h2 : alookup g 2 = some (.nums L)) (h4 : alookup g 4 = some (.nums M)) :
    alookup (parse_gps_data g) (.name "DecimalLatitude")
      = some (.num (if alookup g 1 = some (.ref "S") then -(convQ L) else convQ L))
    ∧ alookup (parse_gps_data g) (.name "DecimalLongitude")
      = some (.num (if alookup g 3 = some (.ref "W") then -(convQ M) else convQ M)) := by
  have hmem2 := alookup_mem h2
  have hmem4 := alookup_mem h4
  have hne : g.isEmpty = false := by
    cases g with
    | nil => simp at hmem2
    | cons a t => rfl
  have hbase2 : ((PKey.name "GPSLatitude", GOut.str (pyStrG (.nums L))) ∈
      g.map (fun kv => (gpsTagName kv.1, GOut.str (pyStrG kv.2)))) := by
    have : (gpsTagName 2, GOut.str (pyStrG (GVal.nums L))) ∈
        g.map (fun kv => (gpsTagName kv.1, GOut.str (pyStrG kv.2))) :=
      List.mem_map_of_mem _ hmem2
    simpa using this
  have hbase4 : ((PKey.name "GPSLongitude", GOut.str (pyStrG (.nums M))) ∈
      g.map (fun kv => (gpsTagName kv.1, GOut.str (pyStrG kv.2)))) := by
    have : (gpsTagName 4, GOut.str (pyStrG (GVal.nums M))) ∈
        g.map (fun kv => (gpsTagName kv.1, GOut.str (pyStrG kv.2))) :=
      List.mem_map_of_mem _ hmem4
    simpa using this
  have hLatSome := alookup_isSome_of_mem hbase2
  have hLonSome := alookup_isSome_of_mem hbase4
  have hnoneLat : alookup (g.map (fun kv => (gpsTagName kv.1, GOut.str (pyStrG kv.2))))
      (PKey.name "DecimalLatitude") = none := by
    apply alookup_eq_none
    intro p hp
    rcases List.mem_map.mp hp with ⟨kv, _, hkv⟩
    rw [← hkv]
    exact gpsTagName_ne_decLat kv.1
  have hnoneLon : alookup (g.map (fun kv => (gpsTagName kv.1, GOut.str (pyStrG kv.2))))
      (PKey.name "DecimalLongitude") = none := by
    apply alookup_eq_none
    intro p hp
    rcases List.mem_map.mp hp with ⟨kv, _, hkv⟩
    rw [← hkv]
    exact gpsTagName_ne_decLon kv.1
  unfold parse_gps_data
  simp only [hne, Bool.false_eq_true, if_false, h2, h4, Option.getD_some,
    convert_to_degrees, hLatSome, hLonSome, Bool.and_self, if_true]
  constructor
  · rw [alookup_append_right _ hnoneLat]
    simp [alookup]
  · rw [alookup_append_right _ hnoneLon]
    simp [alookup]

/-! ## Extractor (`EXIFExtractor.extract_exif_data` and helpers)

A `Record` models the per-file metadata dict: an `Option` field is
`none` when the key is absent from the dict, `some l` when it is present
with (possibly empty) dict/list value `l`. -/

/-- Values in the primary EXIF tag dict: the `GPSInfo` sub-mapping, or
any other value, carried as its `str()` rendering (the classifier only
ever stringifies non-GPS values). -/
inductive TagVal : Type where
  | gps : List (Nat × GVal) → TagVal
  | v : String → TagVal
deriving DecidableEq, Repr

/-- `str(value)` of a primary tag value.  A dict value outside the
`GPSInfo` route would be rendered by Python's `repr`; the placeholder
text stands in for it and no claim inspects it. -/
def pyStrT : TagVal → String
  | .v s => s
  | .gps _ => "<gps-ifd-dict>"

/-- `PIL.ExifTags.TAGS` restricted to the tag ids the classifier names,
plus representatives of the pass-through ids; unknown ids fall through
to the raw integer key, exactly like `TAGS.get(tag_id, tag_id)`. -/
def exifTagTable : List (Nat × String) :=
  [(256, "ImageWidth"), (257, "ImageLength"), (271, "Make"), (272, "Model"),
   (274, "Orientation"), (306, "DateTime"), (33434, "ExposureTime"),
   (34853, "GPSInfo"), (36867, "DateTimeOriginal"), (40961, "ColorSpace"),
   (42035, "LensMake"), (42036, "LensModel")]

def tagName (n : Nat) : PKey :=
  match alookup exifTagTable n with
  | some s => .name s
  | none => .idx n

structure Record : Type where
  file_info : Option (List (String × String)) := none
  exif_data : Option (List (PKey × String)) := none
  gps_data : Option (List (PKey × GOut)) := none
  camera_info : Option (List (String × String)) := none
  image_info : Option (List (String × String)) := none
  video_info : Option (List (String × String)) := none
  streams : Option (List (List (String × String))) := none
  audio_info : Option (List (String × String)) := none
  error : Option String := none
deriving DecidableEq, Repr

/-- A Record holding only an `error` key, e.g. `{"error": "File not found"}`. -/
def errRecord (msg : String) : Record := { error := some msg }

/-- `os.stat` result fields used by `_get_file_info` (`str()` of the
float timestamps is supplied by the environment). -/
structure StatInfo : Type where
  size : Nat
  ctime : String
  mtime : String
deriving DecidableEq, Repr

/-- What `Image.open` + `img._getexif()` deliver: the EXIF tag dict
(`none` models `_getexif()` returning `None`) and the container fields. -/
structure ImgData : Type where
  exif : Option (List (Nat × TagVal))
  format : String
  mode : String
  width : Nat
  height : Nat
deriving DecidableEq, Repr

/-- Outcome of the `subprocess.run(['ffprobe', ...], timeout=30)` call:
binary absent (`FileNotFoundError`), timeout, non-zero exit, zero exit
with parsed JSON format/streams, or any other exception (including a
JSON decode failure of a zero-exit result). -/
inductive ProbeOutcome : Type where
  | missing
  | timeout
  | nonzero
  | ok0 : List (String × String) → List (List (String × String)) → ProbeOutcome
  | raised : String → ProbeOutcome
deriving DecidableEq, Repr

/-- `mutagen.mp3.MP3` result: the three `audio_info` strings as the
source formats them, plus the optional tag-frame dict (values already
stringified per the `str(value[0]) if isinstance(value, list)` line). -/
structure Mp3Info : Type where
  length : String
  bitrate : String
  sampleRate : String
  tags : Option (List (String × String))
deriving DecidableEq, Repr

/-- The collaborators `extract_exif_data` consults.  `.error e` models
the call raising an exception with `str(e) = e`. -/
structure Env : Type where
  pathExists : String → Bool
  stat : String → Except String StatInfo
  openImage : String → Except String ImgData
  exifreadTags : String → Except String (List (String × String))
  ffprobe : String → ProbeOutcome
  mutagenAvailable : Bool
  mp3 : String → Except String Mp3Info

/-- `EXIFExtractor._get_file_info`. -/
def fileInfoList (file_path : String) (st : StatInfo) : List (String × String) :=
  [("File Name", pyBasename file_path),
   ("File Path", file_path),
   ("File Size", groupDigits (toString st.size) ++ " bytes"),
   ("Created", st.ctime),
   ("Modified", st.mtime),
   ("Extension", extLower file_path)]

def cameraTagKeys : List PKey :=
  [.name "Make", .name "Model", .name "LensMake", .name "LensModel"]

def imageTagKeys : List PKey :=
  [.name "ImageWidth", .name "ImageLength", .name "Orientation", .name "ColorSpace"]

def keyString : PKey → String
  | .name s => s
  | .idx n => toString n

/-- One iteration of the classification loop in `_extract_image_exif`:
route the decoded tag into `gps_data` / `camera_info` / `image_info` /
`exif_data`.  Routing a non-dict value through the `GPSInfo` branch
models `value.items()` raising `AttributeError`. -/
def routeOne (m : Record) (tag_id : Nat) (value : TagVal) : Except String Record :=
  let tag := tagName tag_id
  if tag = .name "GPSInfo" then
    match value with
    | .gps gi => .ok { m with gps_data := some (parse_gps_data gi) }
    | .v _ => .error "'str' object has no attribute 'items'"
  else if tag ∈ cameraTagKeys then
    .ok { m with
          camera_info := some (ains (m.camera_info.getD []) (keyString tag) (pyStrT value)) }
  else if tag ∈ imageTagKeys then
    .ok { m with
          image_info := some (ains (m.image_info.getD []) (keyString tag) (pyStrT value)) }
  else
    .ok { m with
          exif_data := some (ains (m.exif_data.getD []) tag (pyStrT value)) }

/-- The classification loop; on an exception the partially updated dict
is kept (Python mutates `metadata` in place before the `except`). -/
def routeLoop : Record → List (Nat × TagVal) → Record × Option String
  | m, [] => (m, none)
  | m, (k, v) :: t =>
    match routeOne m k v with
    | .ok m' => routeLoop m' t
    | .error e => (m, some e)

/-- `metadata["image_info"].update({"Format": ..., "Mode": ..., "Size": ...})`. -/
def updateBasicImageInfo (m : Record) (img : ImgData) : Record :=
  { m with
    image_info := some (ains (ains (ains (m.image_info.getD []) "Format" img.format)
                    "Mode" img.mode) "Size"
                    (toString img.width ++ "x" ++ toString img.height)) }

/-- The exifread pass: `if key not in metadata["exif_data"]` then add. -/
def mergeSecondary (ed : List (PKey × String)) (tags : List (String × String)) :
    List (PKey × String) :=
  tags.foldl (fun acc kv =>
    if (alookup acc (.name kv.1)).isSome then acc else acc ++ [(.name kv.1, kv.2)]) ed

def imgErr (m : Record) (e : String) : Record :=
  { m with error := some ("Error reading image EXIF: " ++ e) }

/-- Body of the `try` in `_extract_image_exif`: Pillow pass, basic image
info, exifread pass; any exception sets `error` and keeps the fields
populated so far. -/
def innerImage (env : Env) (file_path : String) (m0 : Record) : Record :=
  match env.openImage file_path with
  | .error e => imgErr m0 e
  | .ok img =>
    let step := match img.exif with
      | none => (m0, none)
      | some tags => routeLoop m0 tags
    match step.2 with
    | some e => imgErr step.1 e
    | none =>
      let m2 := updateBasicImageInfo step.1 img
      match env.exifreadTags file_path with
      | .error e => imgErr m2 e
      | .ok tags => { m2 with exif_data := some (mergeSecondary (m2.exif_data.getD []) tags) }

/-- `EXIFExtractor._extract_image_exif`.  `_get_file_info` runs outside
the inner `try`, so a raising `os.stat` escapes (to the caller's
catch-all). -/
def imageInit (file_path : String) (st : StatInfo) : Record :=
  { file_info := some (fileInfoList file_path st), exif_data := some [],
    gps_data := some [], camera_info := some [], image_info := some [] }

def extract_image_exif (env : Env) (file_path : String) : Except String Record :=
  (env.stat file_path).map fun st => innerImage env file_path (imageInit file_path st)

/-- `EXIFExtractor._extract_video_exif`: ffprobe missing / timed out /
non-zero exit leave the fields empty; only a zero exit with decodable
JSON populates `video_info` and `streams`; any other exception is
recorded as an error. -/
def extract_video_exif (env : Env) (file_path : String) : Except String Record :=
  (env.stat file_path).map fun st =>
    let m0 : Record := { file_info := some (fileInfoList file_path st),
                         video_info := some [], exif_data := some [] }
    match env.ffprobe file_path with
    | .missing => m0
    | .timeout => m0
    | .nonzero => m0
    | .ok0 fmt strms => { m0 with video_info := some fmt, streams := some strms }
    | .raised e => { m0 with error := some ("Error reading video metadata: " ++ e) }

/-- `EXIFExtractor._extract_audio_exif`: `.mp3` only; a missing mutagen
is a capability error, an `MP3(...)` exception is recorded, other audio
extensions produce an empty `audio_info` with no error. -/
def extract_audio_exif (env : Env) (file_path : String) : Except String Record :=
  (env.stat file_path).map fun st =>
    let m0 : Record := { file_info := some (fileInfoList file_path st),
                         audio_info := some [], exif_data := some [] }
    if extLower file_path = ".mp3" then
      if env.mutagenAvailable then
        match env.mp3 file_path with
        | .error e => { m0 with error := some ("Error reading audio metadata: " ++ e) }
        | .ok info =>
          let m1 := { m0 with
                      audio_info := some [("Length", info.length),
                        ("Bitrate", info.bitrate), ("Sample Rate", info.sampleRate)] }
          match info.tags with
          | none => m1
          | some ts =>
            { m1 with
              exif_data := some (ts.foldl (fun acc kv => ains acc (.name kv.1) kv.2)
                             (m1.exif_data.getD [])) }
      else { m0 with error := some "Install mutagen library for full audio metadata support" }
    else m0

/-- The category dispatch inside the `try` of `extract_exif_data`; an
`.error` is an exception escaping a category handler. -/
def extract_dispatch (env : Env) (file_path : String) : Except String Record :=
  let ext := extLower file_path
  if ext ∈ supported_image_formats then extract_image_exif env file_path
  else if ext ∈ supported_video_formats then extract_video_exif env file_path
  else if ext ∈ supported_audio_formats then extract_audio_exif env file_path
  else .ok (errRecord "Unsupported file format")

/-- `EXIFExtractor.extract_exif_data`: existence guard, dispatch,
catch-all turning any escaped exception into an error Record. -/
def extract_exif_data (env : Env) (file_path : String) : Record :=
  if env.pathExists file_path = false then errRecord "File not found"
  else
    match extract_dispatch env file_path with
    | .ok r => r
    | .error e => errRecord ("Failed to extract EXIF data: " ++ e)

/-! ## Bulk processor (`FileProcessor`)

`process_files` submits one extraction task per supported path to a
thread pool and consumes them with `as_completed`: the completion order
is some permutation of the submitted tasks (theorems quantify over it).
The result dict and the list of `(completed, total)` progress-callback
invocations are both returned; the callback list models the calls a
supplied `progress_callback` would receive, in order. -/

/-- `future.result()` consumption: an exception escaping a task is
caught defensively and recorded as an `Exception occurred` Record. -/
def handleTask : Except String Record → Record
  | .ok r => r
  | .error exc => errRecord ("Exception occurred: " ++ exc)

/-- `FileProcessor.process_files`, generalized over the per-file task
body (`extract_exif_data` in the source, whose Lean model is total, so
the generalization is what keeps the defensive catch observable). -/
def process_files_with (task : String → Except String Record)
    (file_paths : List String) (order : List String) :
    List (String × Record) × List (Nat × Nat) :=
  if file_paths.isEmpty then ([], [])
  else
    let supported_files := file_paths.filter (fun f => is_supported_file f)
    let results := order.foldl (fun acc p => ains acc p (handleTask (task p))) []
    (results, (List.range order.length).map (fun i => (i + 1, supported_files.length)))

def process_files (env : Env) (file_paths : List String) (order : List String) :
    List (String × Record) × List (Nat × Nat) :=
  process_files_with (fun p => .ok (extract_exif_data env p)) file_paths order

/-- The filesystem as `FileProcessor.scan_directory` observes it:
`os.path.isdir`, and the `glob("**/*")` / `glob("*")` enumeration as a
list of `(path, is_file)` entries. -/
structure FS : Type where
  isDir : String → Bool
  glob : String → Bool → List (String × Bool)

/-- `FileProcessor.scan_directory`: non-directories yield `[]`; files
matching the glob whose extension is supported, sorted ascending. -/
def scan_directory (fs : FS) (directory_path : String) (recursive : Bool) :
    List String :=
  if fs.isDir directory_path = false then []
  else
    List.insertionSort (fun a b => a ≤ b)
      (((fs.glob directory_path recursive).filter
        (fun e => e.2 && is_supported_file e.1)).map Prod.fst)

/-- The per-Record test in `FileProcessor.filter_geotagged_files`:
`"gps_data" in metadata`, the dict truthy, both decimal keys present. -/
def geotagged (m : Record) : Bool :=
  match m.gps_data with
  | some g =>
    !g.isEmpty && (alookup g (.name "DecimalLatitude")).isSome &&
      (alookup g (.name "DecimalLongitude")).isSome
  | none => false

def filter_geotagged_files (results : List (String × Record)) :
    List (String × Record) :=
  results.filter (fun pr => geotagged pr.2)

/-! ## Exporter (`DataExporter`)

Serialization is modelled as producing the document structure; the
`open(...)`/write step is abstracted to a boolean `writeOk` (an
exception while writing is caught and turns into a `False` return). -/

def exporter_supported_formats : List String := ["json", "csv", "txt"]

/-- One flattened CSV row of `_export_csv` for a non-error Record. -/
def csvRow (file_path : String) (m : Record) : List (String × String) :=
  [("File Path", file_path)]
  ++ (match m.file_info with
      | some fi => fi.map (fun kv => ("File_" ++ kv.1, kv.2))
      | none => [])
  ++ (match m.exif_data with
      | some ed => ed.map (fun kv => ("EXIF_" ++ keyString kv.1, kv.2))
      | none => [])
  ++ (match m.gps_data with
      | some g => g.map (fun kv =>
          ("GPS_" ++ keyString kv.1,
           match kv.2 with | .str s => s | .num q => qStr q))
      | none => [])
  ++ (match m.camera_info with
      | some ci => ci.map (fun kv => ("Camera_" ++ kv.1, kv.2))
      | none => [])
  ++ (match m.image_info with
      | some ii => ii.map (fun kv => ("Image_" ++ kv.1, kv.2))
      | none => [])

/-- The flattening loop of `_export_csv`: one row per Record without an
`"error"` key. -/
def csvFlatten (data : List (String × Record)) : List (List (String × String)) :=
  data.filterMap (fun pr =>
    if pr.2.error.isSome then none else some (csvRow pr.1 pr.2))

/-- `DataExporter._export_csv`: empty flattened data returns `False`
before any file is opened; otherwise the document (sorted union of the
row keys as header, then the rows) is written.  Returns the Python
boolean plus the written document (`none` = no file created). -/
def export_csv (writeOk : Bool) (data : List (String × Record)) :
    Bool × Option (List String × List (List (String × String))) :=
  let flattened_data := csvFlatten data
  if flattened_data.isEmpty then (false, none)
  else if writeOk then
    (true, some (List.insertionSort (fun a b => a ≤ b)
      (flattened_data.foldl (fun acc row => acc ∪ row.map Prod.fst) []), flattened_data))
  else (false, none)

/-- `DataExporter.export_data`: lowercases the format token, raises
`ValueError` for an unrecognized one, otherwise dispatches (json and
txt serialization are total, so their success is the write's). -/
def export_data (writeOk : Bool) (data : List (String × Record))
    (format_type : String) : Except String Bool :=
  let fmt := strLower format_type
  if fmt ∈ exporter_supported_formats then
    .ok (if fmt = "json" then writeOk
         else if fmt = "csv" then (export_csv writeOk data).1
         else writeOk)
  else .error ("Unsupported format: " ++ fmt)

/-! ## Supporting lemmas -/

theorem foldl_ains_eq_map {α β : Type} [DecidableEq α] (f : α → β) :
    ∀ (order : List α) (acc : List (α × β)), order.Nodup →
      (∀ p ∈ order, alookup acc p = none) →
      order.foldl (fun a p => ains a p (f p)) acc
        = acc ++ order.map (fun p => (p, f p))
  | [], acc, _, _ => by simp
  | p :: t, acc, hnd, hnone => by
    have hp : alookup acc p = none := hnone p (List.mem_cons_self _ _)
    have hrec := foldl_ains_eq_map f t (acc ++ [(p, f p)]) (List.Nodup.of_cons hnd)
      (fun q hq => by
        rw [alookup_append_right _ (hnone q (List.mem_cons_of_mem _ hq))]
        have hqp : p ≠ q := fun h => (List.nodup_cons.mp hnd).1 (h ▸ hq)
        simp [alookup, hqp])
    simp only [List.foldl_cons, ains_of_none hp, hrec, List.map_cons,
      List.append_assoc, List.singleton_append]

theorem mem_foldl_ains {α β : Type} [DecidableEq α] (f : α → β) :
    ∀ (order : List α) (acc : List (α × β)) (pr : α × β),
      pr ∈ order.foldl (fun a p => ains a p (f p)) acc →
      pr ∈ acc ∨ ∃ p ∈ order, pr = (p, f p)
  | [], _, _, h => Or.inl (by simpa using h)
  | p :: t, acc, pr, h => by
    rcases mem_foldl_ains f t (ains acc p (f p)) pr (by simpa using h)
      with h1 | ⟨q, hq, hpr⟩
    · rcases mem_ains h1 with h2 | h2
      · exact Or.inl h2
      · exact Or.inr ⟨p, List.mem_cons_self _ _, h2⟩
    · exact Or.inr ⟨q, List.mem_cons_of_mem _ hq, hpr⟩

/-! ## Claims about the GPS decoder (C2, C5, C6) -/

/-- C2: for a GPS sub-mapping holding a 3-component numeric latitude
triple at index 2 and longitude triple at index 4, `_parse_gps_data`
adds `DecimalLatitude` / `DecimalLongitude` as numbers computed by
`d + m/60 + s/3600`, negated exactly when the reference at index 1 is
the literal `'S'` (resp. index 3 is `'W'`); any other reference value
leaves the magnitude unchanged. -/
theorem C2_decode_gps_decimal (g : List (Nat × GVal)) (d m s d2 m2 s2 : ℚ)
    (h2 : alookup g 2 = some (.nums [d, m, s]))
    (h4 : alookup g 4 = some (.nums [d2, m2, s2])) :
    alookup (parse_gps_data g) (.name "DecimalLatitude")
      = some (.num (if alookup g 1 = some (.ref "S")
          then -(d + m / 60 + s / 3600) else d + m / 60 + s / 3600))
    ∧ alookup (parse_gps_data g) (.name "DecimalLongitude")
      = some (.num (if alookup g 3 = some (.ref "W")
          then -(d2 + m2 / 60 + s2 / 3600) else d2 + m2 / 60 + s2 / 3600)) := by
  have h := parse_gps_decimals g [d, m, s] [d2, m2, s2] h2 h4
  have hc : convQ [d, m, s] = d + m / 60 + s / 3600 := by simp [convQ]
  have hc2 : convQ [d2, m2, s2] = d2 + m2 / 60 + s2 / 3600 := by simp [convQ]
  rw [hc, hc2] at h
  exact h

/-- The spec's worked example: `(40,26,46)/'N'` and `(79,56,55)/'W'`. -/
def exampleGps : List (Nat × GVal) :=
  [(1, .ref "N"), (2, .nums [40, 26, 46]), (3, .ref "W"), (4, .nums [79, 56, 55])]

theorem C2_decode_gps_decimal_witness :
    alookup (parse_gps_data exampleGps) (.name "DecimalLatitude")
      = some (.num (40 + 26 / 60 + 46 / 3600))
    ∧ alookup (parse_gps_data exampleGps) (.name "DecimalLongitude")
      = some (.num (-(79 + 56 / 60 + 55 / 3600)))
    ∧ |(40 + 26 / 60 + 46 / 3600 : ℚ) - 40.446111| < 1 / 10000
    ∧ |(-(79 + 56 / 60 + 55 / 3600) : ℚ) - (-79.948611)| < 1 / 10000 := by
  have h := C2_decode_gps_decimal exampleGps 40 26 46 79 56 55 rfl rfl
  refine ⟨?_, ?_, ?_, ?_⟩
  · simpa [exampleGps, alookup] using h.1
  · simpa [exampleGps, alookup] using h.2
  · rw [abs_lt]; constructor <;> norm_num
  · rw [abs_lt]; constructor <;> norm_num

/-- C5's counterexample input: a syntactically valid GPS sub-mapping
whose latitude triple encodes 200 degrees. -/
def gpsOutOfRange : List (Nat × GVal) :=
  [(1, .ref "N"), (2, .nums [200, 0, 0]), (3, .ref "E"), (4, .nums [10, 0, 0])]

/-- C5 fails as stated: `_parse_gps_data` applies no range clamping, so
a decoded `DecimalLatitude` of 200 (outside `[-90, 90]`) is produced. -/
theorem C5_counterexample :
    alookup (parse_gps_data gpsOutOfRange) (.name "DecimalLatitude")
      = some (.num (200 + 0 / 60 + 0 / 3600))
    ∧ ¬ ((200 + 0 / 60 + 0 / 3600 : ℚ) ≤ 90) := by
  have h := (C2_decode_gps_decimal gpsOutOfRange 200 0 0 10 0 0 rfl rfl).1
  constructor
  · simpa [gpsOutOfRange, alookup] using h
  · norm_num

/-- C5 amended: whenever both triples are numeric and each converted
magnitude lies in `[0, 90]` (resp. `[0, 180]`), the decimal fields are
present and lie in `[-90, 90]` (resp. `[-180, 180]`); the sign comes
only from the `'S'` / `'W'` hemisphere references. -/
theorem C5_amended_decimal_ranges (g : List (Nat × GVal)) (L M : List ℚ)
    (h2 : alookup g 2 = some (.nums L)) (h4 : alookup g 4 = some (.nums M))
    (hL0 : 0 ≤ convQ L) (hL1 : convQ L ≤ 90)
    (hM0 : 0 ≤ convQ M) (hM1 : convQ M ≤ 180) :
    ∃ lat lon : ℚ,
      alookup (parse_gps_data g) (.name "DecimalLatitude") = some (.num lat)
      ∧ alookup (parse_gps_data g) (.name "DecimalLongitude") = some (.num lon)
      ∧ -90 ≤ lat ∧ lat ≤ 90 ∧ -180 ≤ lon ∧ lon ≤ 180 := by
  obtain ⟨hlat, hlon⟩ := parse_gps_decimals g L M h2 h4
  refine ⟨_, _, hlat, hlon, ?_, ?_, ?_, ?_⟩ <;> split_ifs <;> linarith

def inRangeGps : List (Nat × GVal) :=
  [(1, .ref "S"), (2, .nums [10, 30, 0]), (3, .ref "W"), (4, .nums [120, 0, 30])]

theorem C5_amended_decimal_ranges_witness :
    ∃ lat lon : ℚ,
      alookup (parse_gps_data inRangeGps) (.name "DecimalLatitude") = some (.num lat)
      ∧ alookup (parse_gps_data inRangeGps) (.name "DecimalLongitude") = some (.num lon)
      ∧ -90 ≤ lat ∧ lat ≤ 90 ∧ -180 ≤ lon ∧ lon ≤ 180 :=
  C5_amended_decimal_ranges inRangeGps [10, 30, 0] [120, 0, 30] rfl rfl
    (by simp [convQ]; norm_num) (by simp [convQ]; norm_num)
    (by simp [convQ]; norm_num) (by simp [convQ]; norm_num)

/-- C6: a coordinate value whose length is not exactly 3 makes
`_convert_to_degrees` return `0.0` without raising, and the GPS decode
of the rest of the mapping still completes (both decimal fields are
still added, the malformed axis contributing `0.0`). -/
theorem C6_malformed_triple (v : GVal) (hv : pyLen v ≠ 3)
    (g : List (Nat × GVal)) (L M : List ℚ)
    (h2 : alookup g 2 = some (.nums L)) (hL : L.length ≠ 3)
    (h4 : alookup g 4 = some (.nums M)) :
    convert_to_degrees v = .ok 0
    ∧ alookup (parse_gps_data g) (.name "DecimalLatitude") = some (.num 0)
    ∧ (∃ lon, alookup (parse_gps_data g) (.name "DecimalLongitude")
        = some (.num lon)) := by
  refine ⟨?_, ?_, ?_⟩
  · cases v with
    | ref r => simp only [pyLen] at hv; simp [convert_to_degrees, hv]
    | nums l => simp only [pyLen] at hv; simp [convert_to_degrees, convQ, hv]
  · have h := (parse_gps_decimals g L M h2 h4).1
    rw [show convQ L = 0 by simp [convQ, hL]] at h
    simpa using h
  · exact ⟨_, (parse_gps_decimals g L M h2 h4).2⟩

def malformedGps : List (Nat × GVal) := [(2, .nums [1]), (4, .nums [7, 8, 9])]

theorem C6_malformed_triple_witness :
    convert_to_degrees (.nums [1]) = .ok 0
    ∧ alookup (parse_gps_data malformedGps) (.name "DecimalLatitude")
        = some (.num 0)
    ∧ (∃ lon, alookup (parse_gps_data malformedGps) (.name "DecimalLongitude")
        = some (.num lon)) :=
  C6_malformed_triple (.nums [1]) (by decide) malformedGps [1] [7, 8, 9]
    rfl (by decide) rfl

/-! ## Claims about the bulk processor (C3, C8, C9) -/

/-- C3: on an input whose supported sublist has `N` distinct entries,
`process_files` (for any completion order, i.e. any permutation of the
supported list) invokes the progress callback exactly `N` times with
`completed` strictly increasing `1..N` and `total` constantly `N`, and
the result dict has exactly the `N` supported paths as keys; the empty
input returns an empty dict with no callback. -/
theorem C3_process_files_progress (env : Env) (paths order : List String)
    (hperm : order.Perm (paths.filter (fun f => is_supported_file f)))
    (hnd : (paths.filter (fun f => is_supported_file f)).Nodup) :
    (process_files env paths order).2
        = (List.range (paths.filter (fun f => is_supported_file f)).length).map
            (fun i => (i + 1, (paths.filter (fun f => is_supported_file f)).length))
    ∧ ((process_files env paths order).1.map Prod.fst).Perm
        (paths.filter (fun f => is_supported_file f))
    ∧ (paths = [] → process_files env paths order = ([], [])) := by
  by_cases hp : paths = []
  · subst hp
    have hord : order = [] := List.Perm.eq_nil (by simpa using hperm)
    subst hord
    exact ⟨rfl, List.Perm.refl _, fun _ => rfl⟩
  · have hne : paths.isEmpty = false := by
      cases paths with
      | nil => exact absurd rfl hp
      | cons a t => rfl
    have hordnd : order.Nodup := (List.Perm.nodup_iff hperm).mpr hnd
    have hfold := foldl_ains_eq_map
      (fun p => handleTask (Except.ok (extract_exif_data env p))) order []
      hordnd (fun _ _ => rfl)
    refine ⟨?_, ?_, fun h => absurd h hp⟩
    · simp only [process_files, process_files_with, hne, Bool.false_eq_true,
        if_false, hperm.length_eq]
    · simp only [process_files, process_files_with, hne, Bool.false_eq_true,
        if_false, hfold, List.nil_append, List.map_map]
      have : (Prod.fst ∘ fun p =>
          (p, handleTask (Except.ok (extract_exif_data env p)))) = id := rfl
      rw [this, List.map_id]
      exact hperm

def envPlain : Env :=
  { pathExists := fun _ => true,
    stat := fun _ => .ok ⟨2048, "1700000000.0", "1700000001.0"⟩,
    openImage := fun _ => .error "cannot identify image file",
    exifreadTags := fun _ => .ok [],
    ffprobe := fun _ => .missing,
    mutagenAvailable := false,
    mp3 := fun _ => .error "unavailable" }

theorem C3_process_files_progress_witness :
    (process_files envPlain ["a.jpg", "b.txt", "c.mp4"] ["c.mp4", "a.jpg"]).2
        = [(1, 2), (2, 2)]
    ∧ ((process_files envPlain ["a.jpg", "b.txt", "c.mp4"] ["c.mp4", "a.jpg"]).1.map
        Prod.fst).Perm ["a.jpg", "c.mp4"]
    ∧ process_files envPlain [] [] = ([], []) := by
  have h := C3_process_files_progress envPlain ["a.jpg", "b.txt", "c.mp4"]
    ["c.mp4", "a.jpg"] (by decide) (by decide)
  have h0 := C3_process_files_progress envPlain [] [] (by decide) (by decide)
  refine ⟨h.1.trans (by decide), ?_, h0.2.2 rfl⟩
  have e : (["a.jpg", "b.txt", "c.mp4"].filter (fun f => is_supported_file f))
      = ["a.jpg", "c.mp4"] := by decide
  exact e ▸ h.2.1

/-- C8: `filter_geotagged_files` returns exactly the entries whose
`gps_data` is present and contains both `DecimalLatitude` and
`DecimalLongitude`; entries (paths and their Records) are passed through
unchanged, so the input is not mutated. -/
theorem C8_filter_geotagged (results : List (String × Record)) (pr : String × Record) :
    pr ∈ filter_geotagged_files results ↔
      pr ∈ results ∧ ∃ g, pr.2.gps_data = some g
        ∧ (alookup g (.name "DecimalLatitude")).isSome
        ∧ (alookup g (.name "DecimalLongitude")).isSome := by
  simp only [filter_geotagged_files, List.mem_filter]
  constructor
  · rintro ⟨hm, hg⟩
    refine ⟨hm, ?_⟩
    unfold geotagged at hg
    cases hgd : pr.2.gps_data with
    | none => rw [hgd] at hg; simp at hg
    | some g =>
      rw [hgd] at hg
      simp only [Bool.and_eq_true] at hg
      exact ⟨g, rfl, hg.1.2, hg.2⟩
  · rintro ⟨hm, g, hgd, hlat, hlon⟩
    refine ⟨hm, ?_⟩
    unfold geotagged
    rw [hgd]
    have hne : g.isEmpty = false := by
      cases g with
      | nil => simp [alookup] at hlat
      | cons a t => rfl
    simp [hne, hlat, hlon]

def geoRecord : Record :=
  { gps_data := some [(.name "DecimalLatitude", .num 1),
                      (.name "DecimalLongitude", .num 2)] }

theorem C8_filter_geotagged_witness :
    ("a.jpg", geoRecord) ∈ filter_geotagged_files
      [("a.jpg", geoRecord), ("b.jpg", errRecord "File not found")] :=
  (C8_filter_geotagged _ _).mpr
    ⟨by decide, [(.name "DecimalLatitude", .num 1), (.name "DecimalLongitude", .num 2)],
     rfl, by decide, by decide⟩

/-- C9: `scan_directory` returns exactly the `is_file` glob entries with
a supported extension, sorted ascending by path, and returns `[]` for a
non-directory input without an error. -/
theorem C9_scan_directory (fs : FS) (directory_path : String) (recursive : Bool) :
    (fs.isDir directory_path = false →
      scan_directory fs directory_path recursive = [])
    ∧ (fs.isDir directory_path = true →
      (scan_directory fs directory_path recursive).Sorted (· ≤ ·)
      ∧ ∀ p, p ∈ scan_directory fs directory_path recursive ↔
          ((p, true) ∈ fs.glob directory_path recursive
            ∧ is_supported_file p = true)) := by
  constructor
  · intro h
    simp [scan_directory, h]
  · intro h
    constructor
    · simp only [scan_directory, h, Bool.true_eq_false, if_false]
      exact List.sorted_insertionSort _ _
    · intro p
      simp only [scan_directory, h, Bool.true_eq_false, if_false,
        List.mem_insertionSort, List.mem_map, List.mem_filter]
      constructor
      · rintro ⟨⟨q, b⟩, ⟨hmem, hcond⟩, hq⟩
        simp only [Bool.and_eq_true] at hcond
        cases hq
        cases b with
        | false => simp at hcond
        | true => exact ⟨hmem, hcond.2⟩
      · rintro ⟨hmem, hsupp⟩
        exact ⟨(p, true), ⟨hmem, by simp [hsupp]⟩, rfl⟩

def fsExample : FS :=
  { isDir := fun d => d = "photos",
    glob := fun _ _ => [("photos/b.jpg", true), ("photos/a.jpg", true),
                        ("photos/notes.txt", true), ("photos/sub", false)] }

theorem C9_scan_directory_witness :
    scan_directory fsExample "other" true = []
    ∧ (scan_directory fsExample "photos" true).Sorted (· ≤ ·)
    ∧ ("photos/a.jpg" ∈ scan_directory fsExample "photos" true)
    ∧ ("photos/notes.txt" ∉ scan_directory fsExample "photos" true) := by
  have h := C9_scan_directory fsExample "photos" true
  refine ⟨(C9_scan_directory fsExample "other" true).1 (by decide),
    (h.2 rfl).1, ((h.2 rfl).2 "photos/a.jpg").mpr ⟨by decide, by decide⟩, ?_⟩
  intro hmem
  have := ((h.2 rfl).2 "photos/notes.txt").mp hmem
  revert this
  decide

/-! ## Claims about the exporter (C10) -/

/-- C10: when every Record in the data carries an `error` key, the
flattening loop of `_export_csv` produces no rows, so it returns `False`
before any output file is opened (no document is written). -/
theorem C10_export_csv_all_errors (writeOk : Bool) (data : List (String × Record))
    (herr : ∀ pr ∈ data, pr.2.error.isSome) :
    export_csv writeOk data = (false, none) := by
  have hflat : csvFlatten data = [] := by
    unfold csvFlatten
    induction data with
    | nil => rfl
    | cons hd t ih =>
      have hhd := herr hd (List.mem_cons_self _ _)
      simp only [List.filterMap_cons, hhd, if_true]
      exact ih (fun pr hpr => herr pr (List.mem_cons_of_mem _ hpr))
  simp [export_csv, hflat]

theorem C10_export_csv_all_errors_witness :
    export_csv true [("a.jpg", errRecord "File not found"),
      ("b.jpg", errRecord "Unsupported file format")] = (false, none) :=
  C10_export_csv_all_errors true _ (by decide)

/-! ## Error propagation (C4) -/

theorem not_supported_cases {p : String} (h : is_supported_file p = false) :
    extLower p ∉ supported_image_formats
    ∧ extLower p ∉ supported_video_formats
    ∧ extLower p ∉ supported_audio_formats := by
  simp only [is_supported_file, decide_eq_false_iff_not, List.mem_append,
    not_or] at h
  exact ⟨h.1.1, h.1.2, h.2⟩

/-- C4: `extract_exif_data` and `process_files` never let an exception
escape — a missing path, an unsupported extension and any exception
raised inside the category dispatch all become error Records, and an
exception escaping a bulk task is caught into an `Exception occurred`
Record — while `export_data` with an unrecognized format token raises
`ValueError` to the caller. -/
theorem C4_propagation :
    (∀ (env : Env) (p : String), env.pathExists p = false →
      extract_exif_data env p = errRecord "File not found")
    ∧ (∀ (env : Env) (p : String), env.pathExists p = true →
        is_supported_file p = false →
        extract_exif_data env p = errRecord "Unsupported file format")
    ∧ (∀ (env : Env) (p : String) (e : String), env.pathExists p = true →
        extract_dispatch env p = .error e →
        extract_exif_data env p = errRecord ("Failed to extract EXIF data: " ++ e))
    ∧ (∀ (task : String → Except String Record) (paths order : List String)
        (p : String) (r : Record),
        (p, r) ∈ (process_files_with task paths order).1 →
        task p = .ok r
        ∨ ∃ exc, task p = .error exc
            ∧ r = errRecord ("Exception occurred: " ++ exc))
    ∧ (∀ (writeOk : Bool) (data : List (String × Record)) (fmt : String),
        strLower fmt ∉ exporter_supported_formats →
        export_data writeOk data fmt
          = .error ("Unsupported format: " ++ strLower fmt)) := by
  refine ⟨?_, ?_, ?_, ?_, ?_⟩
  · intro env p h
    simp [extract_exif_data, h]
  · intro env p hex hsupp
    obtain ⟨h1, h2, h3⟩ := not_supported_cases hsupp
    simp [extract_exif_data, extract_dispatch, hex, h1, h2, h3]
  · intro env p e hex hdisp
    simp [extract_exif_data, hex, hdisp]
  · intro task paths order p r hmem
    unfold process_files_with at hmem
    split at hmem
    · simp at hmem
    · rcases mem_foldl_ains (fun q => handleTask (task q)) order [] (p, r) hmem
        with h1 | ⟨q, _, hpr⟩
      · simp at h1
      · have hq : q = p := congrArg Prod.fst hpr.symm
        subst hq
        have hr : r = handleTask (task q) := congrArg Prod.snd hpr
        cases htask : task q with
        | ok r0 =>
          left
          rw [hr, htask]
          rfl
        | error exc => right; exact ⟨exc, rfl, by rw [hr, htask]; rfl⟩
  · intro writeOk data fmt h
    simp [export_data, h]

theorem C4_propagation_witness :
    extract_exif_data { envPlain with pathExists := fun _ => false } "a.jpg"
        = errRecord "File not found"
    ∧ extract_exif_data envPlain "notes.xyz" = errRecord "Unsupported file format"
    ∧ extract_exif_data { envPlain with stat := fun _ => .error "stat failed" } "a.jpg"
        = errRecord ("Failed to extract EXIF data: " ++ "stat failed")
    ∧ ((fun _ => (Except.error "boom" : Except String Record)) "a.jpg"
          = .ok (errRecord ("Exception occurred: " ++ "boom"))
        ∨ ∃ exc, (fun _ => (Except.error "boom" : Except String Record)) "a.jpg"
            = .error exc
          ∧ errRecord ("Exception occurred: " ++ "boom")
              = errRecord ("Exception occurred: " ++ exc))
    ∧ export_data true [] "XML" = .error ("Unsupported format: " ++ strLower "XML") := by
  refine ⟨C4_propagation.1 _ "a.jpg" rfl,
    C4_propagation.2.1 envPlain "notes.xyz" rfl (by decide),
    C4_propagation.2.2.1 _ "a.jpg" "stat failed" rfl rfl,
    C4_propagation.2.2.2.1 (fun _ => (Except.error "boom" : Except String Record))
      ["a.jpg"] ["a.jpg"] "a.jpg" (errRecord ("Exception occurred: " ++ "boom"))
      (by decide),
    C4_propagation.2.2.2.2 true [] "XML" (by decide)⟩

/-! ## Record-shape lemmas for the extractor (C1, C7) -/

theorem routeOne_ok_file_info {m : Record} {k : Nat} {v : TagVal} {m' : Record}
    (h : routeOne m k v = .ok m') : m'.file_info = m.file_info := by
  simp only [routeOne] at h
  split at h
  · split at h <;> cases h <;> rfl
  · split at h
    · cases h; rfl
    · split at h <;> cases h <;> rfl

theorem routeLoop_file_info :
    ∀ (tags : List (Nat × TagVal)) (m : Record),
      (routeLoop m tags).1.file_info = m.file_info
  | [], _ => rfl
  | (k, v) :: t, m => by
    simp only [routeLoop]
    cases hro : routeOne m k v with
    | ok m' => rw [routeLoop_file_info t m', routeOne_ok_file_info hro]
    | error e => rfl

theorem innerImage_file_info (env : Env) (p : String) (m0 : Record) :
    (innerImage env p m0).file_info = m0.file_info := by
  cases hoi : env.openImage p with
  | error e => simp [innerImage, hoi, imgErr]
  | ok img =>
    cases hex : img.exif with
    | none =>
      cases hrt : env.exifreadTags p with
      | error e => simp [innerImage, hoi, hex, hrt, imgErr, updateBasicImageInfo]
      | ok ts => simp [innerImage, hoi, hex, hrt, updateBasicImageInfo]
    | some tags =>
      have hfl := routeLoop_file_info tags m0
      rcases hstep : routeLoop m0 tags with ⟨m1, oe⟩
      rw [hstep] at hfl
      simp only at hfl
      cases oe with
      | some e => simp [innerImage, hoi, hex, hstep, imgErr, hfl]
      | none =>
        cases hrt : env.exifreadTags p with
        | error e =>
          simp [innerImage, hoi, hex, hstep, hrt, imgErr, updateBasicImageInfo, hfl]
        | ok ts =>
          simp [innerImage, hoi, hex, hstep, hrt, updateBasicImageInfo, hfl]

theorem extract_image_ok_file_info {env : Env} {p : String} {r : Record}
    (h : extract_image_exif env p = .ok r) :
    ∃ st, env.stat p = .ok st ∧ r.file_info = some (fileInfoList p st) := by
  unfold extract_image_exif at h
  cases hst : env.stat p with
  | error e => rw [hst] at h; cases h
  | ok st =>
    rw [hst] at h
    cases h
    exact ⟨st, rfl, innerImage_file_info env p (imageInit p st)⟩

theorem extract_video_ok_file_info {env : Env} {p : String} {r : Record}
    (h : extract_video_exif env p = .ok r) :
    ∃ st, env.stat p = .ok st ∧ r.file_info = some (fileInfoList p st) := by
  unfold extract_video_exif at h
  cases hst : env.stat p with
  | error e => rw [hst] at h; cases h
  | ok st =>
    rw [hst] at h
    cases h
    refine ⟨st, rfl, ?_⟩
    cases hpr : env.ffprobe p <;> simp [hpr]

theorem extract_audio_ok_file_info {env : Env} {p : String} {r : Record}
    (h : extract_audio_exif env p = .ok r) :
    ∃ st, env.stat p = .ok st ∧ r.file_info = some (fileInfoList p st) := by
  unfold extract_audio_exif at h
  cases hst : env.stat p with
  | error e => rw [hst] at h; cases h
  | ok st =>
    rw [hst] at h
    cases h
    refine ⟨st, rfl, ?_⟩
    by_cases hmp3 : extLower p = ".mp3"
    · cases hma : env.mutagenAvailable
      · simp [hmp3, hma]
      · cases hmp : env.mp3 p with
        | error e => simp [hmp3, hma, hmp]
        | ok info => cases htg : info.tags <;> simp [hmp3, hma, hmp, htg]
    · simp [hmp3]

theorem dispatch_ok_shape {env : Env} {p : String} {r : Record}
    (h : extract_dispatch env p = .ok r) :
    r = errRecord "Unsupported file format"
    ∨ ∃ st, env.stat p = .ok st ∧ r.file_info = some (fileInfoList p st) := by
  simp only [extract_dispatch] at h
  split at h
  · exact Or.inr (extract_image_ok_file_info h)
  · split at h
    · exact Or.inr (extract_video_ok_file_info h)
    · split at h
      · exact Or.inr (extract_audio_ok_file_info h)
      · cases h; exact Or.inl rfl

theorem fileInfoList_ne_nil (p : String) (st : StatInfo) :
    fileInfoList p st ≠ [] := by
  simp [fileInfoList]

/-! ## Record shape (C1) -/

/-- C1 as stated is violated by the partial-result paths, but a nearby
dichotomy holds: a Record without `error` always carries a populated
`file_info`, and the top-level guard failures (missing path, escaped
dispatch exception) produce error-only Records. -/
theorem C1_amended_record_shape (env : Env) (p : String) :
    ((extract_exif_data env p).error.isSome = true
      ∨ ∃ fi, (extract_exif_data env p).file_info = some fi ∧ fi ≠ [])
    ∧ (env.pathExists p = false →
        extract_exif_data env p = errRecord "File not found")
    ∧ (∀ e, env.pathExists p = true → extract_dispatch env p = .error e →
        extract_exif_data env p = errRecord ("Failed to extract EXIF data: " ++ e)) := by
  refine ⟨?_, fun h => by simp [extract_exif_data, h],
    fun e hex hdisp => by simp [extract_exif_data, hex, hdisp]⟩
  cases hex : env.pathExists p with
  | false => left; simp [extract_exif_data, hex, errRecord]
  | true =>
    cases hdisp : extract_dispatch env p with
    | error e => left; simp [extract_exif_data, hex, hdisp, errRecord]
    | ok r =>
      have hr : extract_exif_data env p = r := by
        simp [extract_exif_data, hex, hdisp]
      rcases dispatch_ok_shape hdisp with hunsupp | ⟨st, _, hfi⟩
      · left; rw [hr, hunsupp]; rfl
      · right; exact ⟨_, hr ▸ hfi, fileInfoList_ne_nil p st⟩

/-- Environment in which the Pillow read raises: the `SourceReadFailure`
path of `_extract_image_exif`. -/
def envBrokenImage : Env :=
  { pathExists := fun _ => true,
    stat := fun _ => .ok ⟨2048, "1700000000.0", "1700000001.0"⟩,
    openImage := fun _ => .error "boom",
    exifreadTags := fun _ => .ok [],
    ffprobe := fun _ => .missing,
    mutagenAvailable := false,
    mp3 := fun _ => .error "unavailable" }

/-- C1 is false as stated: a source read failure yields a Record with
`error` set AND a populated `file_info` (plus the empty-but-present
category dicts), so "error implies all other fields absent/empty" fails. -/
theorem C1_counterexample :
    (extract_exif_data envBrokenImage "x.jpg").error
        = some "Error reading image EXIF: boom"
    ∧ (extract_exif_data envBrokenImage "x.jpg").file_info
        = some (fileInfoList "x.jpg" ⟨2048, "1700000000.0", "1700000001.0"⟩)
    ∧ fileInfoList "x.jpg" ⟨2048, "1700000000.0", "1700000001.0"⟩ ≠ [] := by
  refine ⟨by decide, by decide, by decide⟩

theorem C1_amended_record_shape_witness :
    extract_exif_data { envPlain with pathExists := fun _ => false } "a.jpg"
        = errRecord "File not found"
    ∧ ((extract_exif_data envPlain "a.jpg").error.isSome = true
        ∨ ∃ fi, (extract_exif_data envPlain "a.jpg").file_info = some fi ∧ fi ≠ []) :=
  ⟨(C1_amended_record_shape { envPlain with pathExists := fun _ => false } "a.jpg").2.1 rfl,
   (C1_amended_record_shape envPlain "a.jpg").1⟩

/-! ## Origin of `exif_data` keys (C7) -/

theorem routeOne_ok_exif {m : Record} {k : Nat} {v : TagVal} {m' : Record}
    (h : routeOne m k v = .ok m') {pr : PKey × String}
    (hpr : pr ∈ m'.exif_data.getD []) :
    pr ∈ m.exif_data.getD []
    ∨ (pr.1 ∉ cameraTagKeys ∧ pr.1 ∉ imageTagKeys ∧ pr.1 ≠ .name "GPSInfo") := by
  simp only [routeOne] at h
  split at h
  · split at h
    · cases h; exact Or.inl hpr
    · cases h
  · rename_i hgps
    split at h
    · cases h; exact Or.inl hpr
    · rename_i hcam
      split at h
      · cases h; exact Or.inl hpr
      · rename_i himg
        cases h
        rcases mem_ains hpr with h1 | h1
        · exact Or.inl h1
        · right
          rw [h1]
          exact ⟨hcam, himg, hgps⟩

theorem routeLoop_exif :
    ∀ (tags : List (Nat × TagVal)) (m : Record) (pr : PKey × String),
      pr ∈ (routeLoop m tags).1.exif_data.getD [] →
      pr ∈ m.exif_data.getD []
      ∨ (pr.1 ∉ cameraTagKeys ∧ pr.1 ∉ imageTagKeys ∧ pr.1 ≠ .name "GPSInfo")
  | [], _, _, h => Or.inl h
  | (k, v) :: t, m, pr, h => by
    simp only [routeLoop] at h
    cases hro : routeOne m k v with
    | ok m' =>
      simp only [hro] at h
      rcases routeLoop_exif t m' pr h with h1 | h1
      · exact routeOne_ok_exif hro h1
      · exact Or.inr h1
    | error e =>
      simp only [hro] at h
      exact Or.inl h

theorem mem_mergeSecondary :
    ∀ (tags : List (String × String)) (ed : List (PKey × String)) (pr : PKey × String),
      pr ∈ mergeSecondary ed tags →
      pr ∈ ed ∨ ∃ s, pr.1 = .name s ∧ (s, pr.2) ∈ tags
  | [], _, _, h => Or.inl h
  | kv :: t, ed, pr, h => by
    have h' : pr ∈ mergeSecondary
        (if (alookup ed (.name kv.1)).isSome then ed
         else ed ++ [(.name kv.1, kv.2)]) t := by
      simpa [mergeSecondary] using h
    rcases mem_mergeSecondary t _ pr h' with h1 | ⟨s, hs, hmem⟩
    · split at h1
      · exact Or.inl h1
      · rcases List.mem_append.mp h1 with h2 | h2
        · exact Or.inl h2
        · have hpr2 : pr = (.name kv.1, kv.2) := by simpa using h2
          right
          refine ⟨kv.1, by rw [hpr2], ?_⟩
          rw [hpr2]
          exact List.mem_cons_self _ _
    · exact Or.inr ⟨s, hs, List.mem_cons_of_mem _ hmem⟩

theorem innerImage_exif (env : Env) (p : String) (m0 : Record) (pr : PKey × String)
    (hpr : pr ∈ (innerImage env p m0).exif_data.getD []) :
    (pr ∈ m0.exif_data.getD []
      ∨ (pr.1 ∉ cameraTagKeys ∧ pr.1 ∉ imageTagKeys ∧ pr.1 ≠ .name "GPSInfo"))
    ∨ ∃ ts s, env.exifreadTags p = .ok ts ∧ pr.1 = .name s ∧ (s, pr.2) ∈ ts := by
  cases hoi : env.openImage p with
  | error e =>
    simp only [innerImage, hoi, imgErr] at hpr
    exact Or.inl (Or.inl hpr)
  | ok img =>
    cases hex : img.exif with
    | none =>
      cases hrt : env.exifreadTags p with
      | error e =>
        simp only [innerImage, hoi, hex, hrt, imgErr, updateBasicImageInfo] at hpr
        exact Or.inl (Or.inl hpr)
      | ok ts =>
        simp only [innerImage, hoi, hex, hrt, updateBasicImageInfo,
          Option.getD_some] at hpr
        rcases mem_mergeSecondary ts _ pr hpr with h1 | ⟨s, hs1, hs2⟩
        · exact Or.inl (Or.inl h1)
        · exact Or.inr ⟨ts, s, rfl, hs1, hs2⟩
    | some tags =>
      rcases hstep : routeLoop m0 tags with ⟨m1, oe⟩
      cases oe with
      | some e =>
        simp only [innerImage, hoi, hex, hstep, imgErr] at hpr
        exact Or.inl (routeLoop_exif tags m0 pr (by rw [hstep]; exact hpr))
      | none =>
        cases hrt : env.exifreadTags p with
        | error e =>
          simp only [innerImage, hoi, hex, hstep, hrt, imgErr,
            updateBasicImageInfo] at hpr
          exact Or.inl (routeLoop_exif tags m0 pr (by rw [hstep]; exact hpr))
        | ok ts =>
          simp only [innerImage, hoi, hex, hstep, hrt, updateBasicImageInfo,
            Option.getD_some] at hpr
          rcases mem_mergeSecondary ts _ pr hpr with h1 | ⟨s, hs1, hs2⟩
          · exact Or.inl (routeLoop_exif tags m0 pr (by rw [hstep]; exact h1))
          · exact Or.inr ⟨ts, s, rfl, hs1, hs2⟩

/-- C7 amended: keys the primary classification loop routes into
`exif_data` are never claimed camera/image tags nor `GPSInfo`; every
other `exif_data` key was contributed by the secondary (exifread)
source, which only fills keys not already present in `exif_data` but is
not checked against the claimed tag names. -/
theorem C7_amended_exif_key_origin (env : Env) (p : String) (r : Record)
    (hok : extract_image_exif env p = .ok r) (pr : PKey × String)
    (hpr : pr ∈ r.exif_data.getD []) :
    (pr.1 ∉ cameraTagKeys ∧ pr.1 ∉ imageTagKeys ∧ pr.1 ≠ .name "GPSInfo")
    ∨ ∃ ts s, env.exifreadTags p = .ok ts ∧ pr.1 = .name s ∧ (s, pr.2) ∈ ts := by
  unfold extract_image_exif at hok
  cases hst : env.stat p with
  | error e => rw [hst] at hok; cases hok
  | ok st =>
    rw [hst] at hok
    cases hok
    rcases innerImage_exif env p (imageInit p st) pr hpr with h1 | h1
    · rcases h1 with h2 | h2
      · simp [imageInit] at h2
      · exact Or.inl h2
    · exact Or.inr h1

/-- Environment whose secondary (exifread) source reports a bare `Make`
key while the primary source also delivered tag 271 (`Make`). -/
def envSecondaryMake : Env :=
  { pathExists := fun _ => true,
    stat := fun _ => .ok ⟨2048, "1700000000.0", "1700000001.0"⟩,
    openImage := fun _ => .ok ⟨some [(271, .v "Canon")], "JPEG", "RGB", 640, 480⟩,
    exifreadTags := fun _ => .ok [("Make", "Canon Digital")],
    ffprobe := fun _ => .missing,
    mutagenAvailable := false,
    mp3 := fun _ => .error "unavailable" }

/-- C7 is false as stated: the secondary-source merge only checks
against keys already in `exif_data`, so a tag name claimed by
`camera_info` ends up as an `exif_data` key. -/
theorem C7_counterexample :
    (extract_exif_data envSecondaryMake "a.jpg").camera_info
        = some [("Make", "Canon")]
    ∧ alookup ((extract_exif_data envSecondaryMake "a.jpg").exif_data.getD [])
        (.name "Make") = some "Canon Digital"
    ∧ PKey.name "Make" ∈ cameraTagKeys := by
  refine ⟨by decide, by decide, by decide⟩

theorem C7_amended_exif_key_origin_witness :
    ((PKey.name "Make", "Canon Digital").1 ∉ cameraTagKeys
      ∧ (PKey.name "Make", "Canon Digital").1 ∉ imageTagKeys
      ∧ (PKey.name "Make", "Canon Digital").1 ≠ .name "GPSInfo")
    ∨ ∃ ts s, envSecondaryMake.exifreadTags "a.jpg" = .ok ts
        ∧ (PKey.name "Make", "Canon Digital").1 = .name s
        ∧ (s, (PKey.name "Make", "Canon Digital").2) ∈ ts :=
  C7_amended_exif_key_origin envSecondaryMake "a.jpg"
    ((extract_image_exif envSecondaryMake "a.jpg").toOption.getD (errRecord "x"))
    rfl (PKey.name "Make", "Canon Digital") (by decide)
